import Mathlib

/-!
Shallow embedding of the scroll-driven particle system of the
paper-crane-experience landing page: the helix particle field
(`EtherealParticles.jsx`), the morphing crane particle component
(`CraneParticles`, an unnamed source file), their shared tween-driven
animation-state store, and the scroll bridge.

Numeric values are modelled as rationals (the source operates on JS
doubles in a continuous domain with no wraparound concerns).
-/

namespace PaperCrane

/-- Clamp a rational to the unit interval. -/
def clamp01 (x : ℚ) : ℚ := min (max x 0) 1

/-- Modelled from the spec: the tween engine (the gsap library, which is not
part of this repository) eases a value from its current state to a target over
a fixed duration.  All transition calls in the source use ease "power2.out",
the cubic ease-out curve. -/
def power2Out (t : ℚ) : ℚ := 1 - (1 - t) ^ 3

/-- Modelled from the spec: one gsap tween as created by `gsap.to(obj, ...)`:
it captures the value current at start time, the target value, its start time
and its duration. -/
structure Tween where
  fromVal : ℚ
  toVal : ℚ
  startTime : ℚ
  duration : ℚ
deriving DecidableEq

/-- Modelled from the spec: the value a tween drives at time `t`: elapsed
fraction clamped to [0,1], eased with power2.out, interpolating from the
captured start value to the target.  After the duration has elapsed the value
stays at the target. -/
def Tween.valueAt (tw : Tween) (t : ℚ) : ℚ :=
  tw.fromVal + (tw.toVal - tw.fromVal) * power2Out (clamp01 ((t - tw.startTime) / tw.duration))

namespace EtherealParticles

/-- One entry of the `particleStates` table of EtherealParticles.jsx. -/
structure HelixStateDesc where
  tightness : ℚ
  radius : ℚ
  speed : ℚ
  opacity : ℚ
deriving DecidableEq

def heroState : HelixStateDesc := ⟨2.5, 3.5, 0.5, 0.9⟩

def problemState : HelixStateDesc := ⟨3.5, 3.0, 0.35, 0.75⟩

def teamState : HelixStateDesc := ⟨4.0, 2.8, 0.4, 0.95⟩

def philosophyState : HelixStateDesc := ⟨2.0, 4.5, 0.6, 0.85⟩

def servicesState : HelixStateDesc := ⟨2.0, 5.0, 0.8, 1.0⟩

def processState : HelixStateDesc := ⟨3.0, 3.8, 0.5, 0.9⟩

def quoteState : HelixStateDesc := ⟨1.5, 4.0, 0.3, 0.7⟩

def ctaState : HelixStateDesc := ⟨2.5, 3.5, 0.5, 0.9⟩

/-- The `particleStates` lookup table of EtherealParticles.jsx: JS property
access `particleStates[stateName]` yields `undefined` (here `none`) for any
name that is not a key. -/
def particleStates (name : String) : Option HelixStateDesc :=
  match name with
  | "hero" => some heroState
  | "problem" => some problemState
  | "team" => some teamState
  | "philosophy" => some philosophyState
  | "services" => some servicesState
  | "process" => some processState
  | "quote" => some quoteState
  | "cta" => some ctaState
  | _ => none

/-- The four animatable uniforms driven by `transitionToState`:
uHelixTightness, uHelixRadius, uFlowSpeed, uParticleOpacity. -/
inductive HelixParam
  | tightness
  | radius
  | speed
  | opacity
deriving DecidableEq

/-- The target value a descriptor holds for each animatable uniform. -/
def HelixStateDesc.target (st : HelixStateDesc) : HelixParam → ℚ
  | .tightness => st.tightness
  | .radius => st.radius
  | .speed => st.speed
  | .opacity => st.opacity

/-- The live uniform store of the helix component: a base value per parameter
(the initial hero values) and the most recent tween per parameter, if any.
A fresh `gsap.to` on a property supersedes the tween in flight on it, so one
optional tween per parameter captures the store. -/
structure HelixSys where
  base : HelixParam → ℚ
  tweens : HelixParam → Option Tween

/-- The live value of one uniform at time `t`: the tween-driven value when a
tween exists, the base value otherwise. -/
def HelixSys.liveValue (sys : HelixSys) (p : HelixParam) (t : ℚ) : ℚ :=
  match sys.tweens p with
  | none => sys.base p
  | some tw => tw.valueAt t

/-- The uniforms ref of EtherealParticles.jsx initializes the four state
uniforms with the hero values; no tween is in flight on mount. -/
def initHelixSys : HelixSys :=
  { base := heroState.target
    tweens := fun _ => none }

/-- `transitionToState(stateName)` of EtherealParticles.jsx: look the name up
in `particleStates`; if absent return at once; otherwise start a
`gsap.to(..., duration: 2, ease: "power2.out")` tween on each of the four
state uniforms from its current value toward the descriptor's value. -/
def transitionToState (name : String) (t : ℚ) (sys : HelixSys) : HelixSys :=
  match particleStates name with
  | none => sys
  | some st =>
      { base := sys.base
        tweens := fun p => some ⟨sys.liveValue p t, st.target p, t, 2⟩ }

/-- `strandCount` of EtherealParticles.jsx. -/
def strandCount : ℕ := 5

/-- `particlesPerStrand` of EtherealParticles.jsx. -/
def particlesPerStrand : ℕ := 3000

/-- `count = strandCount * particlesPerStrand`. -/
def count : ℕ := strandCount * particlesPerStrand

/-- The `aStrand` attribute array built in the particles useMemo:
`strands[i] = Math.floor(i / particlesPerStrand)`. -/
def strands : List ℕ :=
  (List.range count).map (fun i => i / particlesPerStrand)

/-- The `aProgress` attribute array built in the particles useMemo:
`progress[i] = (i % particlesPerStrand) / particlesPerStrand`. -/
def progress : List ℚ :=
  (List.range count).map
    (fun i => ((i % particlesPerStrand : ℕ) : ℚ) / (particlesPerStrand : ℚ))

end EtherealParticles

namespace CraneParticles

/-- `KEYFRAME_COUNT` of the crane component: number of keyframes sampled from
the animation. -/
def KEYFRAME_COUNT : ℕ := 30

/-- `MAX_PARTICLES` of the crane component: cap on the particle budget. -/
def MAX_PARTICLES : ℕ := 45630

/-- One entry of the `craneStates` table.  Every entry of the source table
sets `visible: true`; the field is never read afterwards. -/
structure CraneStateDesc where
  visible : Bool
  animationSpeed : ℚ
  scale : ℚ
  opacity : ℚ
  dispersion : ℚ
  noiseIntensity : ℚ
  position : ℚ × ℚ × ℚ
  rotation : ℚ × ℚ × ℚ
deriving DecidableEq

def heroCrane : CraneStateDesc :=
  ⟨true, 0.6, 40.8, 0.85, 0.05, 0.02, (0, 0.2, -2), (0.3, -0.5, 0.2)⟩

def problemCrane : CraneStateDesc :=
  ⟨true, 0.7, 29.4, 0.55, 0.4, 0.1, (-0.5, 0, -2.5), (0.2, -0.3, 0.1)⟩

def teamCrane : CraneStateDesc :=
  ⟨true, 1.0, 32.6, 0.7, 0.3, 0.08, (0, 0.2, -2), (0.25, -0.4, 0.15)⟩

def philosophyCrane : CraneStateDesc :=
  ⟨true, 0.5, 35.9, 0.6, 0.55, 0.18, (0.3, 0.5, -2.5), (0.35, -0.6, 0.25)⟩

def servicesCrane : CraneStateDesc :=
  ⟨true, 0.6, 29.4, 0.5, 0.45, 0.14, (0, 0.2, -2.5), (0.2, -0.4, 0.1)⟩

def processCrane : CraneStateDesc :=
  ⟨true, 0.8, 29.4, 0.6, 0.35, 0.1, (0.5, 0.3, -2), (0.25, -0.35, 0.15)⟩

def quoteCrane : CraneStateDesc :=
  ⟨true, 0.4, 32.6, 0.5, 0.65, 0.22, (0, 0.6, -3), (0.3, -0.5, 0.2)⟩

def ctaCrane : CraneStateDesc :=
  ⟨true, 0.8, 45.7, 0.9, 0.05, 0.02, (0, 0.1, -1.5), (0.3, -0.5, 0.2)⟩

/-- The `craneStates` lookup table of the crane component. -/
def craneStates (name : String) : Option CraneStateDesc :=
  match name with
  | "hero" => some heroCrane
  | "problem" => some problemCrane
  | "team" => some teamCrane
  | "philosophy" => some philosophyCrane
  | "services" => some servicesCrane
  | "process" => some processCrane
  | "quote" => some quoteCrane
  | "cta" => some ctaCrane
  | _ => none

/-- The uniforms the crane `transitionToState` drives through `gsap.to`:
uScale, uOpacity, uDispersion, uNoiseIntensity, and the three components
each of uTargetPosition and uRotation. -/
inductive CraneParam
  | scale
  | opacity
  | dispersion
  | noiseIntensity
  | posX
  | posY
  | posZ
  | rotX
  | rotY
  | rotZ
deriving DecidableEq

/-- The target value a crane descriptor holds for each tweened uniform. -/
def CraneStateDesc.target (st : CraneStateDesc) : CraneParam → ℚ
  | .scale => st.scale
  | .opacity => st.opacity
  | .dispersion => st.dispersion
  | .noiseIntensity => st.noiseIntensity
  | .posX => st.position.1
  | .posY => st.position.2.1
  | .posZ => st.position.2.2
  | .rotX => st.rotation.1
  | .rotY => st.rotation.2.1
  | .rotZ => st.rotation.2.2

/-- The live uniform store of the crane component plus the
`animationState.current.animationSpeed` scalar, which `transitionToState`
writes directly instead of tweening. -/
structure CraneSys where
  base : CraneParam → ℚ
  tweens : CraneParam → Option Tween
  animationSpeed : ℚ

/-- Live value of one tweened crane uniform at time `t`. -/
def CraneSys.liveValue (sys : CraneSys) (p : CraneParam) (t : ℚ) : ℚ :=
  match sys.tweens p with
  | none => sys.base p
  | some tw => tw.valueAt t

/-- The crane uniforms and animation state are initialized from
`craneStates.hero`; no tween is in flight on mount. -/
def initCraneSys : CraneSys :=
  { base := heroCrane.target
    tweens := fun _ => none
    animationSpeed := heroCrane.animationSpeed }

/-- `transitionToState(stateName)` of the crane component: look the name up in
`craneStates`; if absent return at once; otherwise set
`animationState.current.animationSpeed` to the descriptor value immediately
and start a 2-second power2.out tween on every other parameter (scale,
opacity, dispersion, noise intensity, position x/y/z, rotation x/y/z) from
its current value.  Every table entry carries a position and a rotation, so
the `if (state.position)` / `if (state.rotation)` guards of the source are
always taken for a successful lookup. -/
def transitionToState (name : String) (t : ℚ) (sys : CraneSys) : CraneSys :=
  match craneStates name with
  | none => sys
  | some st =>
      { base := sys.base
        animationSpeed := st.animationSpeed
        tweens := fun p => some ⟨sys.liveValue p t, st.target p, t, 2⟩ }

/-- An animation clip of the loaded GLTF asset; only its duration drives the
keyframe-sampling loop. -/
structure Clip where
  duration : ℚ

/-- The skinned mesh found in the loaded scene, abstracted to its vertex
count and its pose: `posAt t v` / `normAt t v` stand for the world-space
position and normal of source vertex `v` after `sampleSkinnedMesh` applies
linear blend skinning at clip time `t` (the numeric skinning kernel itself is
opaque data here; the claims under verification quantify over it). -/
structure SkinnedMeshData where
  vertexCount : ℕ
  posAt : ℚ → ℕ → ℚ × ℚ × ℚ
  normAt : ℚ → ℕ → ℚ × ℚ × ℚ

/-- The loaded GLTF model: at most one skinned mesh found by traversal, and
the clip list `gltf.animations`. -/
structure GLTFModel where
  skinnedMesh : Option SkinnedMeshData
  animations : List Clip

/-- One sampled keyframe: subsampled positions and normals. -/
structure Keyframe where
  positions : List (ℚ × ℚ × ℚ)
  normals : List (ℚ × ℚ × ℚ)
deriving DecidableEq

/-- The `particleData` record of the builder. -/
structure ParticleData where
  count : ℕ
  randoms : List ℚ
  normals : List (ℚ × ℚ × ℚ)
deriving DecidableEq

/-- The value of the crane useMemo: `{ particleData, keyframePositions }`;
the missing-mesh and missing-clip branches return
`{ particleData: null, keyframePositions: [] }`. -/
structure BuildResult where
  particleData : Option ParticleData
  keyframePositions : List (List (ℚ × ℚ × ℚ))
deriving DecidableEq

/-- `particleCount = Math.min(vertexCount, MAX_PARTICLES)`. -/
def particleCountOf (vertexCount : ℕ) : ℕ := min vertexCount MAX_PARTICLES

/-- `stride = Math.ceil(vertexCount / particleCount)` (JS float division and
ceiling; exact for these integer magnitudes). -/
def strideOf (vertexCount : ℕ) : ℕ :=
  ⌈(vertexCount : ℚ) / (particleCountOf vertexCount : ℚ)⌉₊

/-- `srcIdx = Math.min(i * stride, vertexCount - 1)` in the subsample loop. -/
def srcIdx (vertexCount stride i : ℕ) : ℕ := min (i * stride) (vertexCount - 1)

/-- `time = (k / (KEYFRAME_COUNT - 1)) * duration`: the clip time at which
keyframe `k` is sampled. -/
def sampleTime (duration : ℚ) (k : ℕ) : ℚ :=
  ((k : ℚ) / ((KEYFRAME_COUNT : ℚ) - 1)) * duration

/-- `seededRandom(seed)` of the crane component:
`x = Math.sin(seed * 12.9898) * 43758.5453; return x - Math.floor(x)`.
`hostSin` abstracts the host's transcendental `Math.sin`. -/
def seededRandom (hostSin : ℚ → ℚ) (seed : ℚ) : ℚ :=
  let x := hostSin (seed * 12.9898) * 43758.5453
  x - (x.floor : ℚ)

/-- One iteration of the keyframe-sampling loop: sample the full vertex set at
`sampleTime duration k` and subsample it with the stride, clamping the source
index to the last vertex. -/
def buildKeyframe (sm : SkinnedMeshData) (duration : ℚ) (k : ℕ) : Keyframe :=
  let time := sampleTime duration k
  let particleCount := particleCountOf sm.vertexCount
  let stride := strideOf sm.vertexCount
  { positions :=
      (List.range particleCount).map
        (fun i => sm.posAt time (srcIdx sm.vertexCount stride i))
    normals :=
      (List.range particleCount).map
        (fun i => sm.normAt time (srcIdx sm.vertexCount stride i)) }

/-- The crane useMemo: find the skinned mesh (else warn and return empty),
take `gltf.animations[0]` (else warn and return empty), sample
`KEYFRAME_COUNT` keyframes, build the per-particle seeded randoms, and take
the first keyframe's normals as dispersion directions (the
`keyframes[0]?.normals || zero` fallback is dead for `KEYFRAME_COUNT > 0`). -/
def buildCrane (hostSin : ℚ → ℚ) (m : GLTFModel) : BuildResult :=
  match m.skinnedMesh with
  | none => ⟨none, []⟩
  | some sm =>
      match m.animations.head? with
      | none => ⟨none, []⟩
      | some clip =>
          let particleCount := particleCountOf sm.vertexCount
          let keyframes := (List.range KEYFRAME_COUNT).map (buildKeyframe sm clip.duration)
          let randoms :=
            (List.range particleCount).map (fun i => seededRandom hostSin ((i : ℚ) + 1))
          let baseNormals :=
            (keyframes.head?.map (fun kf => kf.normals)).getD
              (List.replicate particleCount (0, 0, 0))
          ⟨some ⟨particleCount, randoms, baseNormals⟩,
            keyframes.map (fun kf => kf.positions)⟩

/-- The render guard of the crane component:
`if (!particleData || !keyframePositions.length) return null`. -/
def rendersNothing (r : BuildResult) : Bool :=
  r.particleData.isNone || r.keyframePositions.isEmpty

/-- `animationState.current`: current keyframe index, animation speed, frame
accumulator. -/
structure AnimState where
  currentKeyframe : ℕ
  animationSpeed : ℚ
  frameAccumulator : ℚ
deriving DecidableEq

/-- The initial `animationState`: keyframe 0, hero animation speed,
accumulator 0. -/
def initAnimState : AnimState :=
  ⟨0, heroCrane.animationSpeed, 0⟩

/-- The keyframe-advance portion of the crane useFrame callback:
`frameAccumulator += delta * animationSpeed * 30`; if the accumulator reached
1 it is reset to 0 and `currentKeyframe` advances by one modulo
`KEYFRAME_COUNT`; `uAnimationProgress` is then set to the (possibly reset)
accumulator.  Returns the new animation state and the value written to
`uAnimationProgress`. -/
def frameStep (delta : ℚ) (s : AnimState) : AnimState × ℚ :=
  let acc := s.frameAccumulator + delta * s.animationSpeed * 30
  if 1 ≤ acc then
    (⟨(s.currentKeyframe + 1) % KEYFRAME_COUNT, s.animationSpeed, 0⟩, 0)
  else
    (⟨s.currentKeyframe, s.animationSpeed, acc⟩, acc)

/-- The animation state after a sequence of frames with the given deltas,
starting from the mount state. -/
def runFrames (deltas : List ℚ) : AnimState :=
  deltas.foldl (fun s d => (frameStep d s).1) initAnimState

end CraneParticles

namespace ScrollBridge

/-- The ScrollTrigger configuration of EtherealParticles.jsx: trigger "body",
start "top top", end "bottom bottom", tween of `uScroll` to 1 with ease
"none".  The unsmoothed target of `uScroll` is therefore the scroll offset as
a fraction of the total scrollable height, clamped to [0,1]. -/
def scrollTarget (maxScroll scrollY : ℚ) : ℚ := clamp01 (scrollY / maxScroll)

/-- Modelled from the spec: `scrub: 1` low-pass smoothing (gsap library code,
not part of this repository) — each update moves the live value toward the
target by a fixed fraction `a` of the remaining gap, `0 < a ≤ 1`. -/
def scrubStep (a target s : ℚ) : ℚ := s + a * (target - s)

/-- The smoothed `uScroll` sequence: starts at 0 (the uniform's initial
value) and applies one scrub smoothing step per update toward the target
derived from the scroll position at that update. -/
def uScrollSeq (a maxScroll : ℚ) (scrollY : ℕ → ℚ) : ℕ → ℚ
  | 0 => 0
  | n + 1 => scrubStep a (scrollTarget maxScroll (scrollY n)) (uScrollSeq a maxScroll scrollY n)

end ScrollBridge

/-! ## Helper lemmas on the tween model -/

theorem clamp01_nonneg (x : ℚ) : 0 ≤ clamp01 x :=
  le_min (le_max_right x 0) zero_le_one

theorem clamp01_le_one (x : ℚ) : clamp01 x ≤ 1 := min_le_right _ _

theorem clamp01_mono {x y : ℚ} (h : x ≤ y) : clamp01 x ≤ clamp01 y := by
  unfold clamp01
  exact min_le_min (max_le_max h le_rfl) le_rfl

theorem power2Out_zero : power2Out 0 = 0 := by norm_num [power2Out]

theorem power2Out_one : power2Out 1 = 1 := by norm_num [power2Out]

theorem power2Out_mono {a b : ℚ} (h : a ≤ b) : power2Out a ≤ power2Out b := by
  unfold power2Out
  nlinarith [sq_nonneg ((1 - a) + (1 - b)), sq_nonneg ((1 - a) - (1 - b)), sq_nonneg (1 - a),
    sq_nonneg (1 - b)]

theorem power2Out_le_one {t : ℚ} (h : t ≤ 1) : power2Out t ≤ 1 := by
  unfold power2Out
  nlinarith [sq_nonneg (1 - t)]

theorem power2Out_nonneg {t : ℚ} (h : 0 ≤ t) : 0 ≤ power2Out t := by
  have := power2Out_mono h
  rwa [power2Out_zero] at this

/-- At its start time a tween's value is exactly the captured start value. -/
theorem Tween.valueAt_start (tw : Tween) : tw.valueAt tw.startTime = tw.fromVal := by
  unfold Tween.valueAt clamp01
  norm_num [power2Out_zero]

/-- A tween's distance to its target never grows over time: the driven value
approaches the target monotonically (power2.out is monotone). -/
theorem Tween.dist_target_antitone (tw : Tween) (hd : 0 < tw.duration) {t t' : ℚ}
    (h : t ≤ t') :
    |tw.toVal - tw.valueAt t'| ≤ |tw.toVal - tw.valueAt t| := by
  have key : ∀ s : ℚ, tw.toVal - tw.valueAt s =
      (tw.toVal - tw.fromVal) *
        (1 - power2Out (clamp01 ((s - tw.startTime) / tw.duration))) := by
    intro s; unfold Tween.valueAt; ring
  have hmono : (t - tw.startTime) / tw.duration ≤ (t' - tw.startTime) / tw.duration :=
    (div_le_div_iff_of_pos_right hd).mpr (by linarith)
  have he := power2Out_mono (clamp01_mono hmono)
  have h1 : power2Out (clamp01 ((t - tw.startTime) / tw.duration)) ≤ 1 :=
    power2Out_le_one (clamp01_le_one _)
  have h1' : power2Out (clamp01 ((t' - tw.startTime) / tw.duration)) ≤ 1 :=
    power2Out_le_one (clamp01_le_one _)
  rw [key, key, abs_mul, abs_mul]
  apply mul_le_mul_of_nonneg_left _ (abs_nonneg _)
  rw [abs_of_nonneg (by linarith), abs_of_nonneg (by linarith)]
  linarith

/-- Reading a helix live value when the tween on the parameter is known. -/
theorem EtherealParticles.helix_liveValue_of_tweens_eq (sys : EtherealParticles.HelixSys)
    (p : EtherealParticles.HelixParam) (tw : Tween) (h : sys.tweens p = some tw) (u : ℚ) :
    sys.liveValue p u = tw.valueAt u := by
  unfold EtherealParticles.HelixSys.liveValue
  rw [h]

/-- Reading a crane live value when the tween on the parameter is known. -/
theorem CraneParticles.crane_liveValue_of_tweens_eq (sys : CraneParticles.CraneSys)
    (p : CraneParticles.CraneParam) (tw : Tween) (h : sys.tweens p = some tw) (u : ℚ) :
    sys.liveValue p u = tw.valueAt u := by
  unfold CraneParticles.CraneSys.liveValue
  rw [h]

/-- A frame step keeps the current keyframe index below `KEYFRAME_COUNT`. -/
theorem CraneParticles.frameStep_keyframe_lt (d : ℚ) (s : CraneParticles.AnimState)
    (h : s.currentKeyframe < CraneParticles.KEYFRAME_COUNT) :
    (CraneParticles.frameStep d s).1.currentKeyframe < CraneParticles.KEYFRAME_COUNT := by
  simp only [CraneParticles.frameStep]
  split
  · exact Nat.mod_lt _ (by norm_num [CraneParticles.KEYFRAME_COUNT])
  · exact h

/-- Folding frame steps over any delta sequence preserves the keyframe
bound. -/
theorem CraneParticles.foldl_frameStep_keyframe_lt (deltas : List ℚ)
    (s : CraneParticles.AnimState)
    (h : s.currentKeyframe < CraneParticles.KEYFRAME_COUNT) :
    (deltas.foldl (fun s d => (CraneParticles.frameStep d s).1) s).currentKeyframe <
      CraneParticles.KEYFRAME_COUNT := by
  induction deltas generalizing s with
  | nil => exact h
  | cons d ds ih => exact ih _ (CraneParticles.frameStep_keyframe_lt d s h)

/-- One smoothing step never overshoots the target from below. -/
theorem ScrollBridge.scrubStep_le_target {a T s : ℚ} (ha1 : a ≤ 1) (hsT : s ≤ T) :
    ScrollBridge.scrubStep a T s ≤ T := by
  unfold ScrollBridge.scrubStep
  nlinarith

/-- One smoothing step never moves away from a target that is ahead. -/
theorem ScrollBridge.le_scrubStep {a T s : ℚ} (ha0 : 0 ≤ a) (hsT : s ≤ T) :
    s ≤ ScrollBridge.scrubStep a T s := by
  unfold ScrollBridge.scrubStep
  nlinarith

/-- The smoothed scroll value stays nonnegative and below the current
target. -/
theorem ScrollBridge.uScrollSeq_bounds (a maxScroll : ℚ) (scrollY : ℕ → ℚ)
    (ha0 : 0 < a) (ha1 : a ≤ 1) (hmax : 0 < maxScroll)
    (hmono : ∀ i j, i ≤ j → scrollY i ≤ scrollY j) :
    ∀ n, 0 ≤ ScrollBridge.uScrollSeq a maxScroll scrollY n ∧
      ScrollBridge.uScrollSeq a maxScroll scrollY n ≤
        ScrollBridge.scrollTarget maxScroll (scrollY n) := by
  have htmono : ∀ i j, i ≤ j → ScrollBridge.scrollTarget maxScroll (scrollY i) ≤
      ScrollBridge.scrollTarget maxScroll (scrollY j) := by
    intro i j hij
    exact clamp01_mono ((div_le_div_iff_of_pos_right hmax).mpr (hmono i j hij))
  intro n
  induction n with
  | zero => exact ⟨le_refl 0, clamp01_nonneg _⟩
  | succ n ih =>
      have hstep : ScrollBridge.uScrollSeq a maxScroll scrollY (n + 1) =
          ScrollBridge.scrubStep a (ScrollBridge.scrollTarget maxScroll (scrollY n))
            (ScrollBridge.uScrollSeq a maxScroll scrollY n) := rfl
      constructor
      · rw [hstep]
        unfold ScrollBridge.scrubStep
        have h0T : 0 ≤ ScrollBridge.scrollTarget maxScroll (scrollY n) := clamp01_nonneg _
        nlinarith [ih.1, ih.2]
      · rw [hstep]
        exact le_trans (ScrollBridge.scrubStep_le_target ha1 ih.2)
          (htmono n (n + 1) (Nat.le_succ n))

/-! ## Claim theorems -/

/-- C1: calling `transitionToState` with a name that is not a key of the state
table is a no-op for both particle components: the call returns without
starting any tween, and every live uniform value — the four helix uniforms
and the ten tweened crane uniforms together with the crane animation speed —
is unchanged at every time, for every unknown name and every current state. -/
theorem unknown_state_transition_is_noop (name : String) (t : ℚ)
    (hsys : EtherealParticles.HelixSys) (csys : CraneParticles.CraneSys)
    (hh : EtherealParticles.particleStates name = none)
    (hc : CraneParticles.craneStates name = none) :
    EtherealParticles.transitionToState name t hsys = hsys ∧
    CraneParticles.transitionToState name t csys = csys ∧
    (∀ p u, (EtherealParticles.transitionToState name t hsys).liveValue p u =
      hsys.liveValue p u) ∧
    (∀ p u, (CraneParticles.transitionToState name t csys).liveValue p u =
      csys.liveValue p u) ∧
    (CraneParticles.transitionToState name t csys).animationSpeed = csys.animationSpeed := by
  have h1 : EtherealParticles.transitionToState name t hsys = hsys := by
    unfold EtherealParticles.transitionToState
    rw [hh]
  have h2 : CraneParticles.transitionToState name t csys = csys := by
    unfold CraneParticles.transitionToState
    rw [hc]
  exact ⟨h1, h2, fun p u => by rw [h1], fun p u => by rw [h2], by rw [h2]⟩

/-- Witness for C1 at the concrete unknown name "nonexistent" and the mount
states of both components. -/
theorem unknown_state_transition_is_noop_witness :
    EtherealParticles.transitionToState "nonexistent" 0 EtherealParticles.initHelixSys =
      EtherealParticles.initHelixSys ∧
    CraneParticles.transitionToState "nonexistent" 0 CraneParticles.initCraneSys =
      CraneParticles.initCraneSys ∧
    (CraneParticles.transitionToState "nonexistent" 0
      CraneParticles.initCraneSys).animationSpeed =
      CraneParticles.initCraneSys.animationSpeed := by
  have h := unknown_state_transition_is_noop "nonexistent" 0
    EtherealParticles.initHelixSys CraneParticles.initCraneSys rfl rfl
  exact ⟨h.1, h.2.1, h.2.2.2.2⟩

/-- C4: the helix attribute builder assigns
`strand[i] = Math.floor(i / particlesPerStrand)` and
`progress[i] = (i % particlesPerStrand) / particlesPerStrand` for every
particle index `i < count` with `count = strandCount * particlesPerStrand`;
the progress value lies in [0,1], and both attributes are (total Lean)
functions of the index and the particle-count constants alone. -/
theorem helix_attribute_build (i : ℕ) (hi : i < EtherealParticles.count) :
    EtherealParticles.count =
      EtherealParticles.strandCount * EtherealParticles.particlesPerStrand ∧
    EtherealParticles.strands[i]? = some (i / EtherealParticles.particlesPerStrand) ∧
    EtherealParticles.progress[i]? =
      some (((i % EtherealParticles.particlesPerStrand : ℕ) : ℚ) /
        (EtherealParticles.particlesPerStrand : ℚ)) ∧
    (0 : ℚ) ≤ ((i % EtherealParticles.particlesPerStrand : ℕ) : ℚ) /
      (EtherealParticles.particlesPerStrand : ℚ) ∧
    ((i % EtherealParticles.particlesPerStrand : ℕ) : ℚ) /
      (EtherealParticles.particlesPerStrand : ℚ) ≤ 1 := by
  have hpps : (0 : ℚ) < (EtherealParticles.particlesPerStrand : ℚ) := by
    norm_num [EtherealParticles.particlesPerStrand]
  refine ⟨rfl, ?_, ?_, ?_, ?_⟩
  · rw [EtherealParticles.strands, List.getElem?_map, List.getElem?_range hi]
    rfl
  · rw [EtherealParticles.progress, List.getElem?_map, List.getElem?_range hi]
    rfl
  · exact div_nonneg (by positivity) (le_of_lt hpps)
  · rw [div_le_one hpps]
    have hmod : i % EtherealParticles.particlesPerStrand <
        EtherealParticles.particlesPerStrand :=
      Nat.mod_lt i (by norm_num [EtherealParticles.particlesPerStrand])
    exact_mod_cast le_of_lt hmod

/-- C2: a transition request supersedes any in-flight tween per parameter:
after `transitionToState("hero")` at `t0` and `transitionToState("team")` at
`t1` before the first 2-second tween completes, each helix parameter carries
exactly the one tween created by the second call — it starts at `t1` from the
parameter's current (partial) live value and aims at "team"'s target — the
live value is continuous at `t1`, and from `t1` on it approaches "team"'s
target monotonically, never moving back toward "hero"'s target. -/
theorem transition_supersedes_in_flight_tween
    (sys0 : EtherealParticles.HelixSys) (t0 t1 : ℚ)
    (h01 : t0 ≤ t1) (hlt : t1 < t0 + 2)
    (sys1 sys2 : EtherealParticles.HelixSys)
    (h1 : sys1 = EtherealParticles.transitionToState "hero" t0 sys0)
    (h2 : sys2 = EtherealParticles.transitionToState "team" t1 sys1) :
    ∀ p : EtherealParticles.HelixParam,
      sys2.tweens p =
        some ⟨sys1.liveValue p t1, EtherealParticles.teamState.target p, t1, 2⟩ ∧
      sys2.liveValue p t1 = sys1.liveValue p t1 ∧
      ∀ s s' : ℚ, t1 ≤ s → s ≤ s' →
        |EtherealParticles.teamState.target p - sys2.liveValue p s'| ≤
          |EtherealParticles.teamState.target p - sys2.liveValue p s| := by
  subst h2
  intro p
  have hteam : EtherealParticles.particleStates "team" =
      some EtherealParticles.teamState := rfl
  have htw : (EtherealParticles.transitionToState "team" t1 sys1).tweens p =
      some ⟨sys1.liveValue p t1, EtherealParticles.teamState.target p, t1, 2⟩ := by
    unfold EtherealParticles.transitionToState
    rw [hteam]
  have hlive : ∀ u : ℚ, (EtherealParticles.transitionToState "team" t1 sys1).liveValue p u =
      Tween.valueAt ⟨sys1.liveValue p t1, EtherealParticles.teamState.target p, t1, 2⟩ u :=
    EtherealParticles.helix_liveValue_of_tweens_eq _ p _ htw
  refine ⟨htw, ?_, ?_⟩
  · rw [hlive t1]
    exact Tween.valueAt_start _
  · intro s s' hs hss
    rw [hlive s, hlive s']
    exact Tween.dist_target_antitone
      ⟨sys1.liveValue p t1, EtherealParticles.teamState.target p, t1, 2⟩
      (show (0 : ℚ) < 2 by norm_num) hss

/-- Witness for C2: mount state, first call at time 0, second call at time 1,
observed on the tightness parameter at times 1 and 3/2. -/
theorem transition_supersedes_in_flight_tween_witness :
    (EtherealParticles.transitionToState "team" 1
        (EtherealParticles.transitionToState "hero" 0
          EtherealParticles.initHelixSys)).tweens .tightness =
      some ⟨(EtherealParticles.transitionToState "hero" 0
          EtherealParticles.initHelixSys).liveValue .tightness 1,
        EtherealParticles.teamState.target .tightness, 1, 2⟩ ∧
    |EtherealParticles.teamState.target .tightness -
        (EtherealParticles.transitionToState "team" 1
          (EtherealParticles.transitionToState "hero" 0
            EtherealParticles.initHelixSys)).liveValue .tightness (3/2)| ≤
      |EtherealParticles.teamState.target .tightness -
        (EtherealParticles.transitionToState "team" 1
          (EtherealParticles.transitionToState "hero" 0
            EtherealParticles.initHelixSys)).liveValue .tightness 1| := by
  have h := transition_supersedes_in_flight_tween EtherealParticles.initHelixSys 0 1
    (by norm_num) (by norm_num) _ _ rfl rfl .tightness
  exact ⟨h.1, h.2.2 1 (3/2) (by norm_num) (by norm_num)⟩

/-- C3 counterexample: the claim says every animatable parameter of the
descriptor is driven by a 2-second eased interpolation and none is applied
instantaneously, but the crane `transitionToState` writes the descriptor's
`animationSpeed` directly: at the very instant of the call
`transitionToState("problem")` the live animation speed already equals the
"problem" target 0.7, while a freshly started 2-second tween would still read
the previous value 0.6 there. -/
theorem crane_animation_speed_applied_instantly :
    CraneParticles.initCraneSys.animationSpeed = 0.6 ∧
    (CraneParticles.transitionToState "problem" 0
      CraneParticles.initCraneSys).animationSpeed = 0.7 ∧
    (0.7 : ℚ) ≠ 0.6 := by
  refine ⟨rfl, rfl, by norm_num⟩

/-- C3 amended: for every known state name, `transitionToState` starts a
2-second power2.out tween from the current live value for every tweened
parameter — all four helix uniforms, and the crane scale, opacity,
dispersion, noise intensity, position and rotation — leaving every tweened
live value continuous at call time; the crane `animationSpeed` alone is
applied instantaneously instead of being tweened. -/
theorem known_state_transition_tweens_all_but_animation_speed
    (name : String) (t : ℚ)
    (hsys : EtherealParticles.HelixSys) (csys : CraneParticles.CraneSys)
    (hst : EtherealParticles.HelixStateDesc) (cst : CraneParticles.CraneStateDesc)
    (hh : EtherealParticles.particleStates name = some hst)
    (hc : CraneParticles.craneStates name = some cst) :
    (∀ p, (EtherealParticles.transitionToState name t hsys).tweens p =
      some ⟨hsys.liveValue p t, hst.target p, t, 2⟩) ∧
    (∀ p, (EtherealParticles.transitionToState name t hsys).liveValue p t =
      hsys.liveValue p t) ∧
    (∀ p, (CraneParticles.transitionToState name t csys).tweens p =
      some ⟨csys.liveValue p t, cst.target p, t, 2⟩) ∧
    (∀ p, (CraneParticles.transitionToState name t csys).liveValue p t =
      csys.liveValue p t) ∧
    (CraneParticles.transitionToState name t csys).animationSpeed =
      cst.animationSpeed := by
  have htwh : ∀ p, (EtherealParticles.transitionToState name t hsys).tweens p =
      some ⟨hsys.liveValue p t, hst.target p, t, 2⟩ := by
    intro p
    unfold EtherealParticles.transitionToState
    rw [hh]
  have htwc : ∀ p, (CraneParticles.transitionToState name t csys).tweens p =
      some ⟨csys.liveValue p t, cst.target p, t, 2⟩ := by
    intro p
    unfold CraneParticles.transitionToState
    rw [hc]
  refine ⟨htwh, ?_, htwc, ?_, ?_⟩
  · intro p
    rw [EtherealParticles.helix_liveValue_of_tweens_eq _ p _ (htwh p)]
    exact Tween.valueAt_start _
  · intro p
    rw [CraneParticles.crane_liveValue_of_tweens_eq _ p _ (htwc p)]
    exact Tween.valueAt_start _
  · unfold CraneParticles.transitionToState
    rw [hc]

/-- Witness for C3 amended: name "services" at time 5, mount states, observed
on the helix radius, the crane position z component and the crane animation
speed. -/
theorem known_state_transition_tweens_witness :
    (EtherealParticles.transitionToState "services" 5
        EtherealParticles.initHelixSys).tweens .radius =
      some ⟨EtherealParticles.initHelixSys.liveValue .radius 5,
        EtherealParticles.servicesState.target .radius, 5, 2⟩ ∧
    (EtherealParticles.transitionToState "services" 5
        EtherealParticles.initHelixSys).liveValue .radius 5 =
      EtherealParticles.initHelixSys.liveValue .radius 5 ∧
    (CraneParticles.transitionToState "services" 5
        CraneParticles.initCraneSys).tweens .posZ =
      some ⟨CraneParticles.initCraneSys.liveValue .posZ 5,
        CraneParticles.servicesCrane.target .posZ, 5, 2⟩ ∧
    (CraneParticles.transitionToState "services" 5
        CraneParticles.initCraneSys).animationSpeed =
      CraneParticles.servicesCrane.animationSpeed := by
  have h := known_state_transition_tweens_all_but_animation_speed "services" 5
    EtherealParticles.initHelixSys CraneParticles.initCraneSys
    EtherealParticles.servicesState CraneParticles.servicesCrane rfl rfl
  exact ⟨h.1 _, h.2.1 _, h.2.2.1 _, h.2.2.2.2⟩

/-- Witness for C4 at particle index 7003 (strand 2, progress 1003/3000). -/
theorem helix_attribute_build_witness :
    EtherealParticles.strands[7003]? = some 2 ∧
    EtherealParticles.progress[7003]? = some (1003 / 3000 : ℚ) := by
  have h := helix_attribute_build 7003 (by norm_num [EtherealParticles.count,
    EtherealParticles.strandCount, EtherealParticles.particlesPerStrand])
  refine ⟨?_, ?_⟩
  · rw [h.2.1]
    norm_num [EtherealParticles.particlesPerStrand]
  · rw [h.2.2.1]
    norm_num [EtherealParticles.particlesPerStrand]

/-- C5: for a loaded model with a skinned mesh and an animation clip of
duration `D`, the builder produces exactly `KEYFRAME_COUNT = 30` position
arrays; keyframe `k` is the stride-subsampled pose at clip time
`(k / 29) * D`, so keyframe 0 is sampled at time 0 and keyframe 29 at time
`D`, and the sampling times are evenly spaced `D / 29` apart. -/
theorem keyframe_sampling_count_and_times (hostSin : ℚ → ℚ)
    (sm : CraneParticles.SkinnedMeshData) (clip : CraneParticles.Clip)
    (rest : List CraneParticles.Clip) (m : CraneParticles.GLTFModel)
    (hm : m = ⟨some sm, clip :: rest⟩) :
    (CraneParticles.buildCrane hostSin m).keyframePositions.length =
      CraneParticles.KEYFRAME_COUNT ∧
    CraneParticles.KEYFRAME_COUNT = 30 ∧
    (∀ k, k < 30 →
      (CraneParticles.buildCrane hostSin m).keyframePositions[k]? =
        some ((List.range (CraneParticles.particleCountOf sm.vertexCount)).map
          (fun i => sm.posAt (CraneParticles.sampleTime clip.duration k)
            (CraneParticles.srcIdx sm.vertexCount
              (CraneParticles.strideOf sm.vertexCount) i)))) ∧
    CraneParticles.sampleTime clip.duration 0 = 0 ∧
    CraneParticles.sampleTime clip.duration 29 = clip.duration ∧
    (∀ k : ℕ, CraneParticles.sampleTime clip.duration (k + 1) -
      CraneParticles.sampleTime clip.duration k = clip.duration / 29) := by
  subst hm
  have hbuild : (CraneParticles.buildCrane hostSin ⟨some sm, clip :: rest⟩).keyframePositions =
      ((List.range CraneParticles.KEYFRAME_COUNT).map
        (CraneParticles.buildKeyframe sm clip.duration)).map
        (fun kf => kf.positions) := rfl
  refine ⟨?_, rfl, ?_, ?_, ?_, ?_⟩
  · rw [hbuild, List.length_map, List.length_map, List.length_range]
  · intro k hk
    rw [hbuild, List.getElem?_map, List.getElem?_map]
    simp only [CraneParticles.KEYFRAME_COUNT]
    rw [List.getElem?_range hk]
    rfl
  · unfold CraneParticles.sampleTime
    norm_num
  · unfold CraneParticles.sampleTime CraneParticles.KEYFRAME_COUNT
    norm_num
  · intro k
    unfold CraneParticles.sampleTime CraneParticles.KEYFRAME_COUNT
    push_cast
    ring

/-- Witness for C5: a 100-vertex mesh with an opaque pose function and a clip
of duration 58. -/
theorem keyframe_sampling_count_and_times_witness :
    (CraneParticles.buildCrane (fun _ => 0)
      ⟨some ⟨100, fun _ _ => (0, 0, 0), fun _ _ => (0, 0, 0)⟩,
        [⟨58⟩]⟩).keyframePositions.length = CraneParticles.KEYFRAME_COUNT ∧
    CraneParticles.sampleTime 58 0 = 0 ∧
    CraneParticles.sampleTime 58 29 = 58 ∧
    CraneParticles.sampleTime 58 1 - CraneParticles.sampleTime 58 0 = 2 := by
  have h := keyframe_sampling_count_and_times (fun _ => 0)
    ⟨100, fun _ _ => (0, 0, 0), fun _ _ => (0, 0, 0)⟩ ⟨58⟩ [] _ rfl
  refine ⟨h.1, h.2.2.2.1, h.2.2.2.2.1, ?_⟩
  have hs := h.2.2.2.2.2 0
  rw [show (2 : ℚ) = 58 / 29 by norm_num]
  exact hs

/-- C6: if the loaded model contains no skinned mesh, or a skinned mesh but
no animation clip, the builder yields `particleData = null` and an empty
keyframe list (it is a total function, so no exception is possible), and the
component's render guard consequently renders nothing. -/
theorem missing_mesh_or_clip_produces_nothing (hostSin : ℚ → ℚ)
    (m : CraneParticles.GLTFModel)
    (h : m.skinnedMesh = none ∨ m.animations = []) :
    CraneParticles.buildCrane hostSin m = ⟨none, []⟩ ∧
    (CraneParticles.buildCrane hostSin m).particleData = none ∧
    (CraneParticles.buildCrane hostSin m).keyframePositions = [] ∧
    CraneParticles.rendersNothing (CraneParticles.buildCrane hostSin m) = true := by
  obtain ⟨sk, an⟩ := m
  have hb : CraneParticles.buildCrane hostSin ⟨sk, an⟩ = ⟨none, []⟩ := by
    rcases h with h | h
    · simp only at h
      subst h
      rfl
    · simp only at h
      subst h
      cases sk
      · rfl
      · rfl
  exact ⟨hb, by rw [hb], by rw [hb], by rw [hb]; rfl⟩

/-- Witness for C6: a model whose scene has no skinned mesh (and separately,
one with a mesh but an empty clip list). -/
theorem missing_mesh_or_clip_produces_nothing_witness :
    CraneParticles.buildCrane (fun _ => 0) ⟨none, [⟨1⟩]⟩ = ⟨none, []⟩ ∧
    CraneParticles.rendersNothing
      (CraneParticles.buildCrane (fun _ => 0)
        ⟨some ⟨3, fun _ _ => (0, 0, 0), fun _ _ => (0, 0, 0)⟩, []⟩) = true := by
  have h1 := missing_mesh_or_clip_produces_nothing (fun _ => 0) ⟨none, [⟨1⟩]⟩ (Or.inl rfl)
  have h2 := missing_mesh_or_clip_produces_nothing (fun _ => 0)
    ⟨some ⟨3, fun _ _ => (0, 0, 0), fun _ _ => (0, 0, 0)⟩, []⟩ (Or.inr rfl)
  exact ⟨h1.1, h2.2.2.2⟩

/-- C7 counterexample: the claim says the fractional remainder above the
threshold becomes the intra-keyframe interpolation factor for the overflow
frame, but the useFrame code sets `frameAccumulator = 0` before writing it to
`uAnimationProgress`.  With accumulator 9/10, animation speed 1 and frame
delta 1/100 the increment is 3/10, so the accumulator crosses 1 with
remainder 1/5 — yet the interpolation factor written that frame is 0. -/
theorem frame_remainder_discarded_on_overflow :
    (CraneParticles.frameStep (1 / 100) ⟨0, 1, 9 / 10⟩).2 = 0 ∧
    (CraneParticles.frameStep (1 / 100) ⟨0, 1, 9 / 10⟩).1.frameAccumulator = 0 ∧
    (9 / 10 : ℚ) + (1 / 100) * 1 * 30 - 1 = 1 / 5 ∧
    ((0 : ℚ) ≠ 1 / 5) := by
  have h : CraneParticles.frameStep (1 / 100) ⟨0, 1, 9 / 10⟩ =
      (⟨(0 + 1) % CraneParticles.KEYFRAME_COUNT, 1, 0⟩, 0) := by
    simp only [CraneParticles.frameStep]
    rw [if_pos (by norm_num : (1 : ℚ) ≤ 9 / 10 + 1 / 100 * 1 * 30)]
  refine ⟨by rw [h], by rw [h], by norm_num, by norm_num⟩

/-- C7 amended: the frame accumulator is incremented by
`delta * animationSpeed * 30` (frame-rate independent: two no-overflow frames
of delta `d` accumulate exactly as one frame of `2 * d`); on a frame where it
reaches 1 the keyframe pair advances by one modulo 30 and the accumulator is
reset to exactly 0, discarding the fractional remainder, so the interpolation
factor written to `uAnimationProgress` on an overflow frame is 0 (and on any
other frame it is the updated accumulator itself). -/
theorem frame_accumulator_step (delta : ℚ) (s : CraneParticles.AnimState) :
    (1 ≤ s.frameAccumulator + delta * s.animationSpeed * 30 →
      CraneParticles.frameStep delta s =
        (⟨(s.currentKeyframe + 1) % CraneParticles.KEYFRAME_COUNT, s.animationSpeed, 0⟩, 0)) ∧
    (s.frameAccumulator + delta * s.animationSpeed * 30 < 1 →
      CraneParticles.frameStep delta s =
        (⟨s.currentKeyframe, s.animationSpeed,
            s.frameAccumulator + delta * s.animationSpeed * 30⟩,
          s.frameAccumulator + delta * s.animationSpeed * 30)) ∧
    (∀ d : ℚ, s.frameAccumulator + d * s.animationSpeed * 30 < 1 →
      s.frameAccumulator + 2 * d * s.animationSpeed * 30 < 1 →
      (CraneParticles.frameStep d (CraneParticles.frameStep d s).1).1.frameAccumulator =
        (CraneParticles.frameStep (2 * d) s).1.frameAccumulator) := by
  refine ⟨?_, ?_, ?_⟩
  · intro h
    unfold CraneParticles.frameStep
    rw [if_pos h]
  · intro h
    unfold CraneParticles.frameStep
    rw [if_neg (not_le.mpr h)]
  · intro d h1 h2
    have hstep1 : CraneParticles.frameStep d s =
        (⟨s.currentKeyframe, s.animationSpeed,
            s.frameAccumulator + d * s.animationSpeed * 30⟩,
          s.frameAccumulator + d * s.animationSpeed * 30) := by
      unfold CraneParticles.frameStep
      rw [if_neg (not_le.mpr h1)]
    have hstep2 : CraneParticles.frameStep (2 * d) s =
        (⟨s.currentKeyframe, s.animationSpeed,
            s.frameAccumulator + 2 * d * s.animationSpeed * 30⟩,
          s.frameAccumulator + 2 * d * s.animationSpeed * 30) := by
      unfold CraneParticles.frameStep
      rw [if_neg (not_le.mpr h2)]
    rw [hstep1, hstep2]
    have hacc : (s.frameAccumulator + d * s.animationSpeed * 30) +
        d * s.animationSpeed * 30 = s.frameAccumulator + 2 * d * s.animationSpeed * 30 := by
      ring
    unfold CraneParticles.frameStep
    rw [if_neg (not_le.mpr (by rw [hacc]; exact h2))]
    simp only
    rw [hacc]

/-- Witness for C7 amended: one no-overflow frame from the mount state
(delta 1/100, speed 0.6 gives increment 9/50), and the two-frame
accumulation identity at the same delta. -/
theorem frame_accumulator_step_witness :
    CraneParticles.frameStep (1 / 100) CraneParticles.initAnimState =
      (⟨0, 0.6, 9 / 50⟩, 9 / 50) ∧
    (CraneParticles.frameStep (1 / 100)
        (CraneParticles.frameStep (1 / 100) CraneParticles.initAnimState).1).1.frameAccumulator =
      (CraneParticles.frameStep (2 * (1 / 100)) CraneParticles.initAnimState).1.frameAccumulator := by
  constructor
  · have h := (frame_accumulator_step (1 / 100) CraneParticles.initAnimState).2.1 (by
      show (0 : ℚ) + (1 / 100) * 0.6 * 30 < 1
      norm_num)
    rw [h]
    simp only [CraneParticles.initAnimState, CraneParticles.heroCrane]
    norm_num
  · exact (frame_accumulator_step (1 / 100) CraneParticles.initAnimState).2.2 (1 / 100)
      (by show (0 : ℚ) + (1 / 100) * 0.6 * 30 < 1; norm_num)
      (by show (0 : ℚ) + 2 * (1 / 100) * 0.6 * 30 < 1; norm_num)

/-- C9: the stride-based subsampling never reads out of bounds: for
`vertexCount ≥ 1`, `particleCount = min(vertexCount, 45630)`,
`stride = ceil(vertexCount / particleCount)`, and for every particle index
`i < particleCount` the source vertex index `min(i * stride, vertexCount - 1)`
is a valid index into the full vertex arrays; whenever `i * stride` exceeds
`vertexCount - 1` the particle duplicates the final vertex. -/
theorem subsample_never_out_of_bounds (vertexCount i : ℕ)
    (hv : 1 ≤ vertexCount) (hi : i < CraneParticles.particleCountOf vertexCount) :
    CraneParticles.particleCountOf vertexCount = min vertexCount 45630 ∧
    CraneParticles.strideOf vertexCount =
      ⌈(vertexCount : ℚ) / (CraneParticles.particleCountOf vertexCount : ℚ)⌉₊ ∧
    CraneParticles.srcIdx vertexCount (CraneParticles.strideOf vertexCount) i <
      vertexCount ∧
    (vertexCount - 1 < i * CraneParticles.strideOf vertexCount →
      CraneParticles.srcIdx vertexCount (CraneParticles.strideOf vertexCount) i =
        vertexCount - 1) := by
  refine ⟨rfl, rfl, ?_, ?_⟩
  · calc CraneParticles.srcIdx vertexCount (CraneParticles.strideOf vertexCount) i ≤
        vertexCount - 1 := min_le_right _ _
      _ < vertexCount := Nat.sub_lt hv one_pos
  · intro h
    exact min_eq_right (le_of_lt h)

/-- Witness for C9: a 7-vertex mesh (particle count 7, stride 1) at the last
particle index. -/
theorem subsample_never_out_of_bounds_witness :
    CraneParticles.srcIdx 7 (CraneParticles.strideOf 7) 6 < 7 := by
  have h := subsample_never_out_of_bounds 7 6 (by norm_num) (by
    show 6 < min 7 45630
    norm_num)
  exact h.2.2.1

/-- C10: starting from the mount state, the morph animation keeps
`currentKeyframe` in `[0, 29]` after any sequence of frames; on every
accumulator overflow the keyframe advances cyclically modulo
`KEYFRAME_COUNT = 30` (in particular from keyframe 29 back to 0, so the
animation loops); and for a successfully built model the keyframe index and
its successor always address existing keyframe position arrays. -/
theorem keyframe_index_always_valid (deltas : List ℚ) (hostSin : ℚ → ℚ)
    (sm : CraneParticles.SkinnedMeshData) (clip : CraneParticles.Clip)
    (rest : List CraneParticles.Clip) (m : CraneParticles.GLTFModel)
    (hm : m = ⟨some sm, clip :: rest⟩) :
    (CraneParticles.runFrames deltas).currentKeyframe < CraneParticles.KEYFRAME_COUNT ∧
    (∀ d (s : CraneParticles.AnimState),
      1 ≤ s.frameAccumulator + d * s.animationSpeed * 30 →
      (CraneParticles.frameStep d s).1.currentKeyframe =
        (s.currentKeyframe + 1) % CraneParticles.KEYFRAME_COUNT) ∧
    (∀ d (s : CraneParticles.AnimState), s.currentKeyframe = 29 →
      1 ≤ s.frameAccumulator + d * s.animationSpeed * 30 →
      (CraneParticles.frameStep d s).1.currentKeyframe = 0) ∧
    ((CraneParticles.buildCrane hostSin
        m).keyframePositions[(CraneParticles.runFrames deltas).currentKeyframe]?).isSome =
      true ∧
    ((CraneParticles.buildCrane hostSin
        m).keyframePositions[((CraneParticles.runFrames deltas).currentKeyframe + 1) %
          CraneParticles.KEYFRAME_COUNT]?).isSome = true := by
  subst hm
  have hinv : (CraneParticles.runFrames deltas).currentKeyframe <
      CraneParticles.KEYFRAME_COUNT :=
    CraneParticles.foldl_frameStep_keyframe_lt deltas CraneParticles.initAnimState
      (by norm_num [CraneParticles.initAnimState, CraneParticles.KEYFRAME_COUNT])
  have hadv : ∀ d (s : CraneParticles.AnimState),
      1 ≤ s.frameAccumulator + d * s.animationSpeed * 30 →
      (CraneParticles.frameStep d s).1.currentKeyframe =
        (s.currentKeyframe + 1) % CraneParticles.KEYFRAME_COUNT := by
    intro d s h
    simp only [CraneParticles.frameStep]
    rw [if_pos h]
  have hlen : (CraneParticles.buildCrane hostSin
      ⟨some sm, clip :: rest⟩).keyframePositions.length = CraneParticles.KEYFRAME_COUNT := by
    show (((List.range CraneParticles.KEYFRAME_COUNT).map
      (CraneParticles.buildKeyframe sm clip.duration)).map
        (fun kf => kf.positions)).length = CraneParticles.KEYFRAME_COUNT
    rw [List.length_map, List.length_map, List.length_range]
  refine ⟨hinv, hadv, ?_, ?_, ?_⟩
  · intro d s hkf h
    rw [hadv d s h, hkf]
    norm_num [CraneParticles.KEYFRAME_COUNT]
  · rw [List.getElem?_eq_getElem (by rw [hlen]; exact hinv)]
    rfl
  · rw [List.getElem?_eq_getElem (by
      rw [hlen]
      exact Nat.mod_lt _ (by norm_num [CraneParticles.KEYFRAME_COUNT]))]
    rfl

/-- Witness for C10: three frames of delta 1/10 at mount speed on a 5-vertex
model with a clip of duration 3. -/
theorem keyframe_index_always_valid_witness :
    (CraneParticles.runFrames [1 / 10, 1 / 10, 1 / 10]).currentKeyframe <
      CraneParticles.KEYFRAME_COUNT ∧
    ((CraneParticles.buildCrane (fun _ => 0)
        ⟨some ⟨5, fun _ _ => (0, 0, 0), fun _ _ => (0, 0, 0)⟩,
          [⟨3⟩]⟩).keyframePositions[(CraneParticles.runFrames
            [1 / 10, 1 / 10, 1 / 10]).currentKeyframe]?).isSome = true := by
  have h := keyframe_index_always_valid [1 / 10, 1 / 10, 1 / 10] (fun _ => 0)
    ⟨5, fun _ _ => (0, 0, 0), fun _ _ => (0, 0, 0)⟩ ⟨3⟩ [] _ rfl
  exact ⟨h.1, h.2.2.2.1⟩

/-- C8: the uScroll scalar targets 0 at the top of the document and exactly 1
at the bottom (linear, ease "none"); under the scrub low-pass smoothing the
live value starts at 0, stays within [0,1], is monotonically non-decreasing
whenever the scroll positions are non-decreasing (strictly-downward
scrolling), and the smoothing is a fixed-fraction step whose only settled
value at the bottom target is exactly 1 — rapid scroll deltas reach the
uniform only through this low-pass step, never instantaneously. -/
theorem scroll_progress_zero_one_monotone (a maxScroll : ℚ) (scrollY : ℕ → ℚ)
    (ha0 : 0 < a) (ha1 : a ≤ 1) (hmax : 0 < maxScroll)
    (hmono : ∀ i j, i ≤ j → scrollY i ≤ scrollY j) :
    ScrollBridge.scrollTarget maxScroll 0 = 0 ∧
    ScrollBridge.scrollTarget maxScroll maxScroll = 1 ∧
    (∀ n, 0 ≤ ScrollBridge.uScrollSeq a maxScroll scrollY n ∧
      ScrollBridge.uScrollSeq a maxScroll scrollY n ≤ 1) ∧
    (∀ n, ScrollBridge.uScrollSeq a maxScroll scrollY n ≤
      ScrollBridge.uScrollSeq a maxScroll scrollY (n + 1)) ∧
    (∀ s : ℚ, ScrollBridge.scrubStep a 1 s = s ↔ s = 1) := by
  have hbounds := ScrollBridge.uScrollSeq_bounds a maxScroll scrollY ha0 ha1 hmax hmono
  refine ⟨?_, ?_, ?_, ?_, ?_⟩
  · unfold ScrollBridge.scrollTarget clamp01
    rw [zero_div]
    norm_num
  · unfold ScrollBridge.scrollTarget clamp01
    rw [div_self (ne_of_gt hmax)]
    norm_num
  · intro n
    exact ⟨(hbounds n).1, le_trans (hbounds n).2 (clamp01_le_one _)⟩
  · intro n
    exact ScrollBridge.le_scrubStep (le_of_lt ha0) (hbounds n).2
  · intro s
    constructor
    · intro h
      unfold ScrollBridge.scrubStep at h
      have ha' : a ≠ 0 := ne_of_gt ha0
      have : a * (1 - s) = 0 := by linarith
      rcases mul_eq_zero.mp this with h' | h'
      · exact absurd h' ha'
      · linarith
    · intro h
      subst h
      unfold ScrollBridge.scrubStep
      ring

/-- Witness for C8: smoothing fraction 1/2, a 10-unit scrollable height and
the strictly increasing scroll trace `n ↦ n`, observed at steps 3 and 4. -/
theorem scroll_progress_zero_one_monotone_witness :
    ScrollBridge.scrollTarget 10 0 = 0 ∧
    ScrollBridge.scrollTarget 10 10 = 1 ∧
    0 ≤ ScrollBridge.uScrollSeq (1 / 2) 10 (fun n => (n : ℚ)) 3 ∧
    ScrollBridge.uScrollSeq (1 / 2) 10 (fun n => (n : ℚ)) 3 ≤
      ScrollBridge.uScrollSeq (1 / 2) 10 (fun n => (n : ℚ)) 4 ∧
    ScrollBridge.scrubStep (1 / 2) 1 1 = 1 := by
  have h := scroll_progress_zero_one_monotone (1 / 2) 10 (fun n => (n : ℚ))
    (by norm_num) (by norm_num) (by norm_num)
    (fun i j hij => by
      show (i : ℚ) ≤ (j : ℚ)
      exact_mod_cast hij)
  exact ⟨h.1, h.2.1, (h.2.2.1 3).1, h.2.2.2.1 3, (h.2.2.2.2 1).mpr rfl⟩

end PaperCrane
